import Mathlib

/-!
Shallow embedding of the House-Price-Prediction server and training pipeline.

Source files:
* `src/server/app.py` — the Flask prediction service: `create_features_from_input`
  (feature engineering + alignment against the persisted feature-name list) and
  the `POST /predict` handler `predict` (presence check, numeric/range
  validation, model invocation, clamp, error shapes).
* `src/server/train_and_save_model.py` — the training pipeline: `create_features`
  (batch feature engineering, in particular `pd.cut(..., bins=3)` bucketing of
  condition/grade/views over the training distribution).

Conventions of the embedding: Python floats are modelled as `ℚ`; a JSON request
body (a Python dict) is an association list `ReqData` of field name to `JVal`;
the opaque fitted scaler/model composite of the serving path is an explicit
function argument `runModel : ReqData → Except String ℚ`, where `Except.error m`
models an exception with message `m` raised inside the `try` block (caught at
line 194 of app.py); the wall-clock read `datetime.now().year` is modelled as an
explicit argument `current_year`.
-/

/-- A JSON value as it arrives in the request body (the subset a numeric-field
API sees: numbers, strings, booleans, null). -/
inductive JVal where
  | num (q : ℚ)
  | str (s : String)
  | bool (b : Bool)
  | null
deriving DecidableEq

/-- The request body: a Python dict modelled as an association list with
first-match lookup (dict keys are unique in practice). -/
abbrev ReqData := List (String × JVal)

/-- Dict lookup `data[field]` (as an `Option`: `none` when the key is absent). -/
def lookupJ (d : ReqData) (f : String) : Option JVal :=
  (d.find? fun p => p.1 == f).map Prod.snd

/-- Value of a nonnegative decimal digit string, most significant first. -/
def natOfDigits (cs : List Char) : ℕ :=
  cs.foldl (fun a c => 10 * a + (c.toNat - 48)) 0

/-- The plain-decimal fragment of Python `float(str)`: optional sign, digits,
optional single decimal point (`"5"`, `"-12.25"`, `".5"`, `"7."`). Anything
else — in particular a non-numeric string like `"abc"` — is `none`, modelling
the `ValueError` that `float()` raises. -/
def parseDec (s : String) : Option ℚ :=
  let cs0 := s.toList
  let signed : ℚ × List Char :=
    match cs0 with
    | '-' :: rest => (-1, rest)
    | '+' :: rest => (1, rest)
    | _ => (1, cs0)
  let cs := signed.2
  let ipart := cs.takeWhile (fun c => c != '.')
  if cs.isEmpty then none
  else
    match cs.dropWhile (fun c => c != '.') with
    | [] =>
        if ipart.isEmpty || !ipart.all Char.isDigit then none
        else some (signed.1 * (natOfDigits ipart : ℚ))
    | _ :: fpart =>
        if (ipart.isEmpty && fpart.isEmpty) || !ipart.all Char.isDigit
            || !fpart.all Char.isDigit || fpart.any (fun c => c == '.') then none
        else some (signed.1 *
          ((natOfDigits ipart : ℚ) + (natOfDigits fpart : ℚ) / (10 ^ fpart.length)))

/-- Python `float(value)` on a JSON value: numbers pass through, booleans become
0/1, numeric strings are parsed, `null` (a `TypeError`) and non-numeric strings
(a `ValueError`) fail. -/
def pyFloat : JVal → Option ℚ
  | JVal.num q => some q
  | JVal.bool b => some (if b then 1 else 0)
  | JVal.str s => parseDec s
  | JVal.null => none

/-- The 19 required raw input fields, in the order of `required_fields`
(app.py lines 124–130). -/
def required_fields : List String :=
  ["bedrooms", "bathrooms", "living_area", "lot_area", "floors",
   "waterfront", "views", "condition", "grade", "house_area",
   "basement_area", "built_year", "renovation_year", "latitude",
   "longitude", "living_area_renovated", "lot_area_renovated",
   "schools_nearby", "airport_distance"]

/-- The missing-field test of app.py line 133: a field is missing when it is
absent from the dict or its value is the empty string (`data[field] == ''`;
a Python value equals `''` exactly when it is that string). -/
def isMissing (d : ReqData) (f : String) : Bool :=
  match lookupJ d f with
  | none => true
  | some (JVal.str s) => s == ""
  | some _ => false

/-- `missing_fields` of app.py line 133: every required field that is absent or
empty, in `required_fields` order. -/
def missing_fields (d : ReqData) : List String :=
  required_fields.filter (fun f => isMissing d f)

/-- The `validations` dict of app.py lines 138–154: the 15 range-checked fields
with their closed `(min, max)` bounds, in dict insertion order. (Note: latitude,
longitude, living_area_renovated and lot_area_renovated are required but have no
entry here.) -/
def validations : List (String × ℚ × ℚ) :=
  [("bedrooms", 0, 20), ("bathrooms", 0, 20), ("living_area", 100, 50000),
   ("lot_area", 100, 1000000), ("floors", 1, 10), ("waterfront", 0, 1),
   ("views", 0, 10), ("condition", 1, 10), ("grade", 1, 15),
   ("house_area", 100, 50000), ("basement_area", 0, 10000),
   ("built_year", 1800, 2024), ("renovation_year", 0, 2024),
   ("schools_nearby", 0, 50), ("airport_distance", 0, 500)]

/-- A 400-response error shape of the `predict` handler. -/
inductive ValErr where
  /-- `"No data provided"` (app.py line 121, the `if not data` guard). -/
  | noData
  /-- `"Missing required fields: ..."` listing the named fields (line 135). -/
  | missingFields (fs : List String)
  /-- `"{field} must be between {mn} and {mx}"` (line 160). -/
  | outOfRange (f : String) (mn mx : ℚ)
  /-- `"Invalid {field} value. Must be a number."` (line 162). -/
  | notNumeric (f : String)
deriving DecidableEq

/-- The body of one iteration of the validation loop (app.py lines 156–162):
convert `data[field]` with `float` (failure → the invalid-value error) and
compare against the closed range (violation → the out-of-range error);
`none` when the field passes. -/
def fieldError (d : ReqData) (t : String × ℚ × ℚ) : Option ValErr :=
  match pyFloat ((lookupJ d t.1).getD JVal.null) with
  | none => some (ValErr.notNumeric t.1)
  | some v =>
      if t.2.1 ≤ v ∧ v ≤ t.2.2 then none
      else some (ValErr.outOfRange t.1 t.2.1 t.2.2)

/-- The whole validation loop: the error of the first failing entry of
`validations`, `none` when every entry passes. -/
def checkRanges (d : ReqData) : Option ValErr :=
  validations.findSome? (fieldError d)

/-- Outcome of `POST /predict`. -/
inductive PredictResult where
  /-- HTTP 400 with the given validation error. -/
  | badRequest (e : ValErr)
  /-- HTTP 200 with `predicted_price` (metrics/model_info fields are read-only
  training artifacts, omitted from the embedding). -/
  | success (predicted_price : ℚ)
  /-- HTTP 500 with the given `error` message body (app.py line 198). -/
  | serverError (msg : String)
deriving DecidableEq

/-- The `predict` handler of app.py lines 114–198. `runModel` is the opaque
feature-engineering → scaling → regression composite of lines 165–171 (the spec
treats the fitted model as a black box); `Except.error m` models an exception
with message `m` raised inside the `try` block, which line 198 converts to a
500 whose body embeds `m`. -/
def predict (d : ReqData) (runModel : ReqData → Except String ℚ) : PredictResult :=
  if d.isEmpty then PredictResult.badRequest ValErr.noData
  else
    let miss := missing_fields d
    if miss.isEmpty then
      match checkRanges d with
      | some e => PredictResult.badRequest e
      | none =>
          match runModel d with
          | Except.error msg =>
              PredictResult.serverError ("Internal server error: " ++ msg)
          | Except.ok pred =>
              PredictResult.success (if pred < 0 then 0 else pred)
    else PredictResult.badRequest (ValErr.missingFields miss)

/-- A raw input record after numeric conversion (`pd.to_numeric` succeeded on
every field): the 19 required fields as rationals. -/
structure RawRecord where
  bedrooms : ℚ
  bathrooms : ℚ
  living_area : ℚ
  lot_area : ℚ
  floors : ℚ
  waterfront : ℚ
  views : ℚ
  condition : ℚ
  grade : ℚ
  house_area : ℚ
  basement_area : ℚ
  built_year : ℚ
  renovation_year : ℚ
  latitude : ℚ
  longitude : ℚ
  living_area_renovated : ℚ
  lot_area_renovated : ℚ
  schools_nearby : ℚ
  airport_distance : ℚ
deriving DecidableEq

/-- Python `.astype(int)` on a float value: truncation toward zero. -/
def pyTrunc (q : ℚ) : ℚ := if 0 ≤ q then ((⌊q⌋ : ℤ) : ℚ) else ((-⌊-q⌋ : ℤ) : ℚ)

/-- Assignment of a value to one of three right-closed equal-width intervals
`(e0, e1], (e1, e2], (e2, e3]` (`none` = the value falls outside, pandas `NaN`).
Bin 0, 1, 2 carry the first, second, third label of the `pd.cut` call. -/
def binAssign (e0 e1 e2 e3 v : ℚ) : Option ℕ :=
  if e0 < v ∧ v ≤ e1 then some 0
  else if e1 < v ∧ v ≤ e2 then some 1
  else if e2 < v ∧ v ≤ e3 then some 2
  else none

/-- `pd.cut(x, bins=3)` where the column `x` has observed minimum `mn` and
maximum `mx`, applied to the value `v`: when `mn = mx` (a single-valued column,
in particular the one-row DataFrame of the serving path) pandas widens the
range by 0.1% on each side (by 0.001 absolutely when the value is 0) and cuts
it into three equal right-closed bins; otherwise it cuts `[mn, mx]` into three
equal right-closed bins and extends the leftmost edge down by 0.1% of the range
so the minimum is included. -/
def cut3 (mn mx v : ℚ) : Option ℕ :=
  if mn = mx then
    let a := mn - (if mn = 0 then (1 : ℚ)/1000 else |mn|/1000)
    let b := mx + (if mx = 0 then (1 : ℚ)/1000 else |mx|/1000)
    let w := (b - a)/3
    binAssign a (a + w) (a + 2*w) b v
  else
    let w := (mx - mn)/3
    binAssign (mn - (mx - mn)/1000) (mn + w) (mn + 2*w) mx v

/-- The bucketing the server applies (app.py lines 71–73): `pd.cut` over the
one-row DataFrame built from the request, so the observed minimum and maximum
are both the request's own value — the bin edges are recomputed from the single
per-request input. -/
def cutSingle (v : ℚ) : Option ℕ := cut3 v v v

/-- `condition_category` as the training pipeline computes it for one row
(train_and_save_model.py line 87): `pd.cut` with bin edges from the training
column's observed minimum `cmin` and maximum `cmax`. -/
def conditionCategoryTrain (cmin cmax c : ℚ) : Option ℕ := cut3 cmin cmax c

/-- `condition_category` as the server computes it for the same row
(app.py line 71): `pd.cut` over the single-row input. -/
def conditionCategoryInfer (c : ℚ) : Option ℕ := cut3 c c c

/-- One-hot indicator for bucket `k` of a `pd.cut` result (`get_dummies` with
`drop_first=True` keeps the columns for buckets 1 and 2). -/
def dummyOf (cat : Option ℕ) (k : ℕ) : ℚ := if cat = some k then 1 else 0

/-- The engineered columns `create_features_from_input` builds from the request
(app.py lines 34–76), as an association list of column name to value: the 19
raw fields, the derived features of lines 52–68 with `current_year` standing
for the wall-clock read `datetime.now().year` of line 53, and the six one-hot
columns that `pd.cut` + `get_dummies(drop_first=True)` of lines 71–76 produce
from the one-row DataFrame. -/
def create_features_from_input (r : RawRecord) (current_year : ℚ) :
    List (String × ℚ) :=
  let age := current_year - r.built_year
  let ccat := cutSingle r.condition
  let gcat := cutSingle r.grade
  let vcat := cutSingle r.views
  [("bedrooms", r.bedrooms), ("bathrooms", r.bathrooms),
   ("living_area", r.living_area), ("lot_area", r.lot_area),
   ("floors", r.floors), ("waterfront", r.waterfront), ("views", r.views),
   ("condition", r.condition), ("grade", r.grade),
   ("house_area", r.house_area), ("basement_area", r.basement_area),
   ("built_year", r.built_year), ("renovation_year", r.renovation_year),
   ("latitude", r.latitude), ("longitude", r.longitude),
   ("living_area_renovated", r.living_area_renovated),
   ("lot_area_renovated", r.lot_area_renovated),
   ("schools_nearby", r.schools_nearby),
   ("airport_distance", r.airport_distance),
   ("age", age),
   ("years_since_renovation",
     if r.renovation_year > 0 then current_year - r.renovation_year else age),
   ("has_basement", if r.basement_area > 0 then 1 else 0),
   ("is_renovated", if r.renovation_year > 0 then 1 else 0),
   ("has_waterfront", pyTrunc r.waterfront),
   ("living_to_lot_ratio", r.living_area / (r.lot_area + 1)),
   ("basement_to_house_ratio", r.basement_area / (r.house_area + 1)),
   ("condition_category_Average", dummyOf ccat 1),
   ("condition_category_Good", dummyOf ccat 2),
   ("grade_category_Medium", dummyOf gcat 1),
   ("grade_category_High", dummyOf gcat 2),
   ("views_category_Some", dummyOf vcat 1),
   ("views_category_Excellent", dummyOf vcat 2)]

/-- Value of an engineered column by name (first match). -/
def lookupVal (enc : List (String × ℚ)) (f : String) : Option ℚ :=
  (enc.find? fun p => p.1 == f).map Prod.snd

/-- The fill loop of app.py lines 79–81: for each persisted feature name in
order, add a zero-valued column when the engineered record lacks it. -/
def addMissing (enc : List (String × ℚ)) (canon : List String) :
    List (String × ℚ) :=
  canon.foldl
    (fun acc f =>
      if (acc.find? fun p => p.1 == f).isSome then acc else acc ++ [(f, 0)])
    enc

/-- The aligner of app.py lines 78–84: fill absent canonical columns with 0,
then select exactly the canonical feature names in their persisted order
(`X = df_encoded[feature_names]`). -/
def alignFeatures (enc : List (String × ℚ)) (canon : List String) : List ℚ :=
  let filled := addMissing enc canon
  canon.map (fun f => ((filled.find? fun p => p.1 == f).map Prod.snd).getD 0)

/-- `StandardScaler.transform` applied to one aligned vector: elementwise
`(x - mean) / scale` with the per-feature constants fitted at training time. -/
def scaleTransform (means scales xs : List ℚ) : List ℚ :=
  List.zipWith (fun ms x => (x - ms.1) / ms.2) (List.zip means scales) xs

/-- The serving pipeline up to the regressor: Feature Engineer → Aligner →
Scaler on one request, with the wall-clock year an explicit input. -/
def pipelineVector (r : RawRecord) (current_year : ℚ) (canon : List String)
    (means scales : List ℚ) : List ℚ :=
  scaleTransform means scales (alignFeatures (create_features_from_input r current_year) canon)

/-- The persisted canonical feature list the training run produces
(train_and_save_model.py lines 96–107): the 24 base features and the six
one-hot columns of the three bucketings, in training order. -/
def featureNamesTrained : List String :=
  ["bedrooms", "bathrooms", "living_area", "lot_area", "floors",
   "waterfront", "views", "condition", "grade", "house_area",
   "basement_area", "age", "years_since_renovation", "latitude",
   "longitude", "living_area_renovated", "lot_area_renovated",
   "schools_nearby", "airport_distance", "has_basement", "is_renovated",
   "has_waterfront", "living_to_lot_ratio", "basement_to_house_ratio",
   "condition_category_Average", "condition_category_Good",
   "grade_category_Medium", "grade_category_High",
   "views_category_Some", "views_category_Excellent"]

/-- A request body with all 19 fields, built in `required_fields` order. -/
def mkReq (bedrooms bathrooms living_area lot_area floors waterfront views
    condition grade house_area basement_area built_year renovation_year
    latitude longitude living_area_renovated lot_area_renovated
    schools_nearby airport_distance : JVal) : ReqData :=
  [("bedrooms", bedrooms), ("bathrooms", bathrooms),
   ("living_area", living_area), ("lot_area", lot_area), ("floors", floors),
   ("waterfront", waterfront), ("views", views), ("condition", condition),
   ("grade", grade), ("house_area", house_area),
   ("basement_area", basement_area), ("built_year", built_year),
   ("renovation_year", renovation_year), ("latitude", latitude),
   ("longitude", longitude),
   ("living_area_renovated", living_area_renovated),
   ("lot_area_renovated", lot_area_renovated),
   ("schools_nearby", schools_nearby),
   ("airport_distance", airport_distance)]

/-- The valid end-to-end example record of spec §8 (coordinates rounded to
integers so that concrete evaluation stays in integer rationals). -/
def exampleReq : ReqData :=
  mkReq (JVal.num 3) (JVal.num 2) (JVal.num 1800) (JVal.num 5000) (JVal.num 1)
    (JVal.num 0) (JVal.num 0) (JVal.num 3) (JVal.num 7) (JVal.num 1800)
    (JVal.num 0) (JVal.num 1990) (JVal.num 0) (JVal.num 47) (JVal.num (-122))
    (JVal.num 1800) (JVal.num 5000) (JVal.num 2) (JVal.num 15)

/-- `exampleReq` with a non-numeric string as `latitude`. -/
def reqStrLatitude : ReqData :=
  mkReq (JVal.num 3) (JVal.num 2) (JVal.num 1800) (JVal.num 5000) (JVal.num 1)
    (JVal.num 0) (JVal.num 0) (JVal.num 3) (JVal.num 7) (JVal.num 1800)
    (JVal.num 0) (JVal.num 1990) (JVal.num 0) (JVal.str "abc")
    (JVal.num (-122)) (JVal.num 1800) (JVal.num 5000) (JVal.num 2)
    (JVal.num 15)

/-- `exampleReq` with `bedrooms = -1` and `views = 99`: two range violations,
`bedrooms` first in `validations` order. -/
def reqTwoViolations : ReqData :=
  mkReq (JVal.num (-1)) (JVal.num 2) (JVal.num 1800) (JVal.num 5000)
    (JVal.num 1) (JVal.num 0) (JVal.num 99) (JVal.num 3) (JVal.num 7)
    (JVal.num 1800) (JVal.num 0) (JVal.num 1990) (JVal.num 0) (JVal.num 47)
    (JVal.num (-122)) (JVal.num 1800) (JVal.num 5000) (JVal.num 2)
    (JVal.num 15)

/-- `exampleReq` with `built_year = 1700`, below its documented range. -/
def reqOldYear : ReqData :=
  mkReq (JVal.num 3) (JVal.num 2) (JVal.num 1800) (JVal.num 5000) (JVal.num 1)
    (JVal.num 0) (JVal.num 0) (JVal.num 3) (JVal.num 7) (JVal.num 1800)
    (JVal.num 0) (JVal.num 1700) (JVal.num 0) (JVal.num 47) (JVal.num (-122))
    (JVal.num 1800) (JVal.num 5000) (JVal.num 2) (JVal.num 15)

/-- `exampleReq` with `bedrooms` present but equal to the empty string. -/
def reqEmptyBedrooms : ReqData :=
  mkReq (JVal.str "") (JVal.num 2) (JVal.num 1800) (JVal.num 5000)
    (JVal.num 1) (JVal.num 0) (JVal.num 0) (JVal.num 3) (JVal.num 7)
    (JVal.num 1800) (JVal.num 0) (JVal.num 1990) (JVal.num 0) (JVal.num 47)
    (JVal.num (-122)) (JVal.num 1800) (JVal.num 5000) (JVal.num 2)
    (JVal.num 15)

/-- A request body omitting both `bedrooms` and `grade` (spec §8, test 4). -/
def reqMissingTwo : ReqData :=
  [("bathrooms", JVal.num 2), ("living_area", JVal.num 1800),
   ("lot_area", JVal.num 5000), ("floors", JVal.num 1),
   ("waterfront", JVal.num 0), ("views", JVal.num 0),
   ("condition", JVal.num 3), ("house_area", JVal.num 1800),
   ("basement_area", JVal.num 0), ("built_year", JVal.num 1990),
   ("renovation_year", JVal.num 0), ("latitude", JVal.num 47),
   ("longitude", JVal.num (-122)), ("living_area_renovated", JVal.num 1800),
   ("lot_area_renovated", JVal.num 5000), ("schools_nearby", JVal.num 2),
   ("airport_distance", JVal.num 15)]

/-- The spec §8 example as a numeric `RawRecord` (integer coordinates). -/
def exampleRaw : RawRecord :=
  ⟨3, 2, 1800, 5000, 1, 0, 0, 3, 7, 1800, 0, 1990, 0, 47, -122, 1800, 5000, 2, 15⟩

/-- `exampleRaw` with `condition = 10`, the top of the validator's range. -/
def rawCondTen : RawRecord :=
  ⟨3, 2, 1800, 5000, 1, 0, 0, 10, 7, 1800, 0, 1990, 0, 47, -122, 1800, 5000, 2, 15⟩

/-- `List.findSome?` is the `bind` of the first element whose image is `some`:
the validation loop reports exactly the first failing entry. -/
theorem findSome?_eq_find?_bind {α β : Type} (f : α → Option β) (l : List α) :
    l.findSome? f = (l.find? fun a => (f a).isSome).bind f := by
  induction l with
  | nil => rfl
  | cons a l ih =>
      cases h : f a with
      | some b =>
          rw [List.findSome?_cons_of_isSome _ (by simp [h]),
            List.find?_cons_of_pos _ (by simp [h])]
          simp [h]
      | none =>
          rw [List.findSome?_cons_of_isNone _ (by simp [h]),
            List.find?_cons_of_neg _ (by simp [h]), ih]

/-- Looking a name up after the fill loop: a name the engineered record holds
keeps its value; a name it lacks was appended with value 0 exactly when it is
canonical. -/
theorem addMissing_find? (canon : List String) (enc : List (String × ℚ))
    (f : String) :
    ((addMissing enc canon).find? fun p => p.1 == f)
      = ((enc.find? fun p => p.1 == f).or
          (if f ∈ canon then some (f, 0) else none)) := by
  induction canon generalizing enc with
  | nil => simp [addMissing, Option.or_none]
  | cons g gs ih =>
      have hstep : addMissing enc (g :: gs)
          = addMissing (if (enc.find? fun p => p.1 == g).isSome then enc
              else enc ++ [(g, 0)]) gs := rfl
      rw [hstep]
      by_cases hfg : f = g
      · subst hfg
        cases h : enc.find? fun p => p.1 == f with
        | some v => simp [h, ih, Option.or]
        | none => simp [h, ih, List.find?_append, Option.or]
      · have hgf : ((g, (0 : ℚ)).1 == f) = false :=
          beq_eq_false_iff_ne.mpr fun hc => hfg hc.symm
        have hif : (if f ∈ g :: gs then some (f, (0 : ℚ)) else none)
            = (if f ∈ gs then some (f, 0) else none) := by
          by_cases hm : f ∈ gs <;> simp [List.mem_cons, hfg, hm]
        have hsingle : (List.find? (fun p => p.1 == f) [(g, (0 : ℚ))]) = none := by
          simp [List.find?, hgf]
        rw [hif]
        split
        · rw [ih]
        · rw [ih, List.find?_append, hsingle, Option.or_none]

/-- The aligner in one equation: for each canonical name in order, the
engineered record's value when present, else 0. -/
theorem alignFeatures_eq_map (enc : List (String × ℚ)) (canon : List String) :
    alignFeatures enc canon
      = canon.map (fun f => ((enc.find? fun p => p.1 == f).map Prod.snd).getD 0) := by
  unfold alignFeatures
  refine List.map_congr_left fun f hf => ?_
  rw [addMissing_find?, if_pos hf]
  cases h : enc.find? fun p => p.1 == f <;> simp [Option.or]

/-- Once every validation step passes, the handler's result is the model step's
result: a 500 embedding the exception text, or the clamped prediction. -/
theorem predict_eq_of_valid (d : ReqData) (rm : ReqData → Except String ℚ)
    (h1 : d.isEmpty = false) (h2 : missing_fields d = [])
    (h3 : checkRanges d = none) :
    predict d rm = (match rm d with
      | Except.error msg =>
          PredictResult.serverError ("Internal server error: " ++ msg)
      | Except.ok pred =>
          PredictResult.success (if pred < 0 then 0 else pred)) := by
  simp [predict, h1, h2, h3]

/-- C1: the claim says inference bucketing must use the bin edges frozen at
training time; the code instead recomputes `pd.cut` edges from the single
per-request row. Witnessed at `condition = 10` with training-observed range
`[1, 10]`: the training pipeline buckets the row into bin 2 (`Good`, the
interval `(7, 10]`), while the server's single-row cut always lands in the
middle bin 1 (`Average`), so the engineered one-hot column
`condition_category_Good` is 0 at inference where training engineering puts 1. -/
theorem infer_bins_differ_from_training_bins :
    conditionCategoryTrain 1 10 10 = some 2 ∧
    conditionCategoryInfer 10 = some 1 ∧
    conditionCategoryTrain 1 10 10 ≠ conditionCategoryInfer 10 ∧
    dummyOf (conditionCategoryTrain 1 10 10) 2 = 1 ∧
    lookupVal (create_features_from_input rawCondTen 2024)
      ("condition_category_Good") = some 0 := by
  have htrain : conditionCategoryTrain 1 10 10 = some 2 := by
    norm_num [conditionCategoryTrain, cut3, binAssign]
  have hinfer : conditionCategoryInfer 10 = some 1 := by
    norm_num [conditionCategoryInfer, cut3, binAssign]
  have hsingle : cutSingle (10 : ℚ) = some 1 := hinfer
  refine ⟨htrain, hinfer, by rw [htrain, hinfer]; decide, by rw [htrain]; rfl, ?_⟩
  simp [create_features_from_input, lookupVal, rawCondTen, hsingle, dummyOf,
    List.find?]

/-- C2: for every request that passes validation, whenever the regressor
produces an output, the returned `predicted_price` is that output clamped at
0: exactly 0 when the output is negative, the output itself otherwise, and
nonnegative in every case (app.py lines 171–180). -/
theorem predict_clamps_negative_predictions :
    ∀ (d : ReqData) (rm : ReqData → Except String ℚ) (q : ℚ),
      d.isEmpty = false → missing_fields d = [] → checkRanges d = none →
      rm d = Except.ok q →
      predict d rm = PredictResult.success (if q < 0 then 0 else q) ∧
      (q < 0 → predict d rm = PredictResult.success 0) ∧
      (0 ≤ q → predict d rm = PredictResult.success q) ∧
      ∀ price, predict d rm = PredictResult.success price → 0 ≤ price := by
  intro d rm q h1 h2 h3 h4
  have hmain : predict d rm = PredictResult.success (if q < 0 then 0 else q) := by
    rw [predict_eq_of_valid d rm h1 h2 h3, h4]
  refine ⟨hmain, fun hq => ?_, fun hq => ?_, fun price hp => ?_⟩
  · rw [hmain, if_pos hq]
  · rw [hmain, if_neg (not_lt.mpr hq)]
  · rw [hmain] at hp
    cases hp
    split
    · exact le_refl 0
    · exact le_of_not_lt (by assumption)

/-- C2 witness: the spec §8 record with a stubbed regressor returning −500 is
answered with `predicted_price = 0`. -/
theorem predict_clamps_negative_predictions_witness :
    predict exampleReq (fun _ => Except.ok (-500)) = PredictResult.success 0 :=
  (predict_clamps_negative_predictions exampleReq (fun _ => Except.ok (-500))
    (-500) (by decide) (by decide) (by decide) rfl).2.1 (by norm_num)

/-- C3 counterexample: a request whose `latitude` is the non-numeric string
`"abc"` passes the whole validation (no missing field, `checkRanges` finds
nothing), refuting the claim that every one of the 19 required fields is
checked for numeric convertibility and range: the request proceeds to the
model step (here stubbed as the NaN exception sklearn actually raises) and is
never answered with a 400 naming `latitude`. -/
theorem predict_nonnumeric_latitude_passes_validation :
    lookupJ reqStrLatitude ("latitude") = some (JVal.str "abc") ∧
    pyFloat (JVal.str "abc") = none ∧
    missing_fields reqStrLatitude = [] ∧
    checkRanges reqStrLatitude = none ∧
    predict reqStrLatitude (fun _ => Except.error "Input contains NaN") =
      PredictResult.serverError ("Internal server error: Input contains NaN") ∧
    predict reqStrLatitude (fun _ => Except.error "Input contains NaN") ≠
      PredictResult.badRequest (ValErr.notNumeric "latitude") := by
  refine ⟨by decide, by decide, by decide, by decide, ?_, ?_⟩ <;> decide

/-- C3 (amended): the validator checks numeric convertibility and the
documented closed range for exactly the 15 fields of the `validations` table
(all required fields except latitude, longitude, living_area_renovated and
lot_area_renovated); when any of those checks fails on a
presence-validated request, the response is a 400 carrying the error of a
genuinely failing validated field — the field's name with its violated
constraint. -/
theorem predict_range_check_on_validated_fields :
    ∀ (d : ReqData) (rm : ReqData → Except String ℚ) (t : String × ℚ × ℚ),
      d.isEmpty = false → missing_fields d = [] →
      t ∈ validations → fieldError d t ≠ none →
      ∃ u e, validations.find? (fun u => (fieldError d u).isSome) = some u ∧
        fieldError d u = some e ∧
        predict d rm = PredictResult.badRequest e := by
  intro d rm t h1 h2 ht hfail
  have hsome : ((validations.find? fun u => (fieldError d u).isSome)).isSome := by
    rw [List.find?_isSome]
    exact ⟨t, ht, Option.ne_none_iff_isSome.mp hfail⟩
  obtain ⟨u, hu⟩ := Option.isSome_iff_exists.mp hsome
  have hup := List.find?_some hu
  obtain ⟨e, he⟩ := Option.isSome_iff_exists.mp (by simpa using hup)
  have hcheck : checkRanges d = some e := by
    rw [checkRanges, findSome?_eq_find?_bind, hu, Option.some_bind]
    exact he
  refine ⟨u, e, hu, he, ?_⟩
  simp [predict, h1, h2, hcheck]

/-- C3 witness: `built_year = 1700` (spec §8, test 3) is answered with the 400
naming `built_year` and its violated range `[1800, 2024]`. -/
theorem predict_range_check_on_validated_fields_witness :
    ∃ u e, validations.find? (fun u => (fieldError reqOldYear u).isSome) = some u ∧
      fieldError reqOldYear u = some e ∧
      predict reqOldYear (fun _ => Except.ok 9) = PredictResult.badRequest e :=
  predict_range_check_on_validated_fields reqOldYear (fun _ => Except.ok 9)
    ("built_year", 1800, 2024) (by decide) (by decide) (by decide) (by decide)

/-- C4 counterexample: the empty JSON body misses every required field, yet the
code's `if not data` guard (app.py line 121) answers it with the generic
`"No data provided"` 400 that names none of the 19 missing fields. -/
theorem predict_empty_body_names_no_fields :
    predict ([] : ReqData) (fun _ => Except.ok 0) =
      PredictResult.badRequest ValErr.noData ∧
    missing_fields ([] : ReqData) = required_fields ∧
    predict ([] : ReqData) (fun _ => Except.ok 0) ≠
      PredictResult.badRequest
        (ValErr.missingFields (missing_fields ([] : ReqData))) := by
  refine ⟨rfl, by decide, by decide⟩

/-- C4 (amended): for every request with a non-empty body that is missing one
or more required fields, the response is the 400 whose message lists
`missing_fields` — and every required field that is absent or empty is on that
list, not only the first (app.py lines 132–135). -/
theorem predict_missing_fields_aggregated :
    ∀ (d : ReqData) (rm : ReqData → Except String ℚ),
      d.isEmpty = false → missing_fields d ≠ [] →
      predict d rm =
        PredictResult.badRequest (ValErr.missingFields (missing_fields d)) ∧
      ∀ f ∈ required_fields, isMissing d f = true → f ∈ missing_fields d := by
  intro d rm h1 h2
  constructor
  · have h2' : (missing_fields d).isEmpty = false := by
      rw [List.isEmpty_eq_false]
      exact h2
    simp [predict, h1, h2']
  · intro f hf hm
    exact List.mem_filter.mpr ⟨hf, hm⟩

/-- C4 witness: omitting both `bedrooms` and `grade` (spec §8, test 4) yields
the 400 listing exactly those two field names. -/
theorem predict_missing_fields_aggregated_witness :
    missing_fields reqMissingTwo = ["bedrooms", "grade"] ∧
    predict reqMissingTwo (fun _ => Except.ok 5) =
      PredictResult.badRequest
        (ValErr.missingFields (missing_fields reqMissingTwo)) :=
  ⟨by decide, (predict_missing_fields_aggregated reqMissingTwo
    (fun _ => Except.ok 5) (by decide) (by decide)).1⟩

/-- C5 counterexample: on the empty body the presence check never runs — the
`if not data` guard answers first with an error that does not report the
missing fields together, refuting the claim as stated for every request. -/
theorem predict_empty_body_skips_presence_check :
    predict ([] : ReqData) (fun _ => Except.ok 1) =
      PredictResult.badRequest ValErr.noData ∧
    missing_fields ([] : ReqData) ≠ [] ∧
    predict ([] : ReqData) (fun _ => Except.ok 1) ≠
      PredictResult.badRequest
        (ValErr.missingFields (missing_fields ([] : ReqData))) := by
  refine ⟨rfl, by decide, by decide⟩

/-- C5 (amended): for every request with a non-empty body, validation is
ordered — the presence check runs first and reports all missing fields
together (even when range violations are also present); only when no field is
missing does the per-field numeric/range loop run, reporting the first failing
entry of `validations`; and whenever validation fails, the result is the same
for every model/feature pipeline, i.e. no feature computation influences the
response before validation has fully passed. -/
theorem predict_validation_is_ordered :
    ∀ (d : ReqData) (rm rm2 : ReqData → Except String ℚ) (e : ValErr),
      d.isEmpty = false →
      (missing_fields d ≠ [] →
        predict d rm =
          PredictResult.badRequest (ValErr.missingFields (missing_fields d))) ∧
      (missing_fields d = [] → checkRanges d = some e →
        predict d rm = PredictResult.badRequest e ∧
        ∃ t, validations.find? (fun t => (fieldError d t).isSome) = some t ∧
          fieldError d t = some e) ∧
      ((missing_fields d ≠ [] ∨ (checkRanges d).isSome) →
        predict d rm = predict d rm2) := by
  intro d rm rm2 e h1
  refine ⟨fun h2 => ?_, fun h2 h3 => ?_, fun h => ?_⟩
  · have h2' : (missing_fields d).isEmpty = false := by
      rw [List.isEmpty_eq_false]
      exact h2
    simp [predict, h1, h2']
  · constructor
    · simp [predict, h1, h2, h3]
    · rw [checkRanges, findSome?_eq_find?_bind] at h3
      cases hu : validations.find? fun t => (fieldError d t).isSome with
      | none => rw [hu] at h3; exact absurd h3 (by simp)
      | some u =>
          rw [hu, Option.some_bind] at h3
          exact ⟨u, rfl, h3⟩
  · by_cases hm : missing_fields d = []
    · cases h with
      | inl hne => exact absurd hm hne
      | inr hsome =>
          obtain ⟨e2, he2⟩ := Option.isSome_iff_exists.mp hsome
          simp [predict, h1, hm, he2]
    · have h2' : (missing_fields d).isEmpty = false := by
        rw [List.isEmpty_eq_false]
        exact hm
      simp [predict, h1, h2']

/-- C5 witness: with both `bedrooms = -1` and `views = 99` out of range, the
response names `bedrooms`, the first failing entry in `validations` order. -/
theorem predict_validation_is_ordered_witness :
    predict reqTwoViolations (fun _ => Except.ok 3) =
      PredictResult.badRequest (ValErr.outOfRange "bedrooms" 0 20) :=
  ((predict_validation_is_ordered reqTwoViolations (fun _ => Except.ok 3)
    (fun _ => Except.ok 4) (ValErr.outOfRange "bedrooms" 0 20)
    (by decide)).2.1 (by decide) (by decide)).1

/-- C6: for every engineered record and canonical feature list, the aligner's
output is a vector of exactly the canonical length, holding for each canonical
name in persisted order the engineered record's value when present and 0
otherwise; engineered columns outside the canonical list never appear, so
length and order are fixed by the canonical list alone, identical across all
calls (app.py lines 78–84). -/
theorem alignFeatures_canonical :
    ∀ (enc : List (String × ℚ)) (canon : List String),
      (alignFeatures enc canon).length = canon.length ∧
      alignFeatures enc canon
        = canon.map (fun f => ((enc.find? fun p => p.1 == f).map Prod.snd).getD 0) := by
  intro enc canon
  have h := alignFeatures_eq_map enc canon
  exact ⟨by rw [h, List.length_map], h⟩

/-- C7: the serving pipeline Feature Engineer → Aligner → Scaler is a pure
function of the raw record and the reference year (the embedding of the
wall-clock read `datetime.now().year`, its only environmental input): two runs
on equal records and equal years give identical vectors. -/
theorem pipeline_deterministic :
    ∀ (r1 r2 : RawRecord) (y1 y2 : ℚ) (canon : List String)
      (means scales : List ℚ),
      r1 = r2 → y1 = y2 →
      pipelineVector r1 y1 canon means scales
        = pipelineVector r2 y2 canon means scales := by
  intro r1 r2 y1 y2 canon means scales hr hy
  rw [hr, hy]

/-- C7 witness: two runs on the spec §8 record with reference year 2024 and
the persisted training feature list agree. -/
theorem pipeline_deterministic_witness :
    pipelineVector exampleRaw 2024 featureNamesTrained
        (List.replicate 30 0) (List.replicate 30 1)
      = pipelineVector exampleRaw 2024 featureNamesTrained
        (List.replicate 30 0) (List.replicate 30 1) :=
  pipeline_deterministic exampleRaw exampleRaw 2024 2024 featureNamesTrained
    (List.replicate 30 0) (List.replicate 30 1) rfl rfl

/-- C8: the feature engineer computes `living_to_lot_ratio` as
`living_area / (lot_area + 1)` and `basement_to_house_ratio` as
`basement_area / (house_area + 1)` (app.py lines 66–68), and under the
validator's range preconditions `lot_area ≥ 100` and `house_area ≥ 100` both
denominators are nonzero. -/
theorem engineered_denominators_nonzero :
    ∀ (r : RawRecord) (y : ℚ),
      100 ≤ r.lot_area → 100 ≤ r.house_area →
      r.lot_area + 1 ≠ 0 ∧ r.house_area + 1 ≠ 0 ∧
      lookupVal (create_features_from_input r y) ("living_to_lot_ratio")
        = some (r.living_area / (r.lot_area + 1)) ∧
      lookupVal (create_features_from_input r y) ("basement_to_house_ratio")
        = some (r.basement_area / (r.house_area + 1)) := by
  intro r y h1 h2
  refine ⟨ne_of_gt (by linarith), ne_of_gt (by linarith), rfl, rfl⟩

/-- C8 witness: the spec §8 record (lot_area 5000, house_area 1800) satisfies
the preconditions and carries the two ratio features with the source formulas. -/
theorem engineered_denominators_nonzero_witness :
    exampleRaw.lot_area + 1 ≠ 0 ∧ exampleRaw.house_area + 1 ≠ 0 ∧
    lookupVal (create_features_from_input exampleRaw 2024) ("living_to_lot_ratio")
      = some (exampleRaw.living_area / (exampleRaw.lot_area + 1)) ∧
    lookupVal (create_features_from_input exampleRaw 2024) ("basement_to_house_ratio")
      = some (exampleRaw.basement_area / (exampleRaw.house_area + 1)) :=
  engineered_denominators_nonzero exampleRaw 2024 (by decide) (by decide)

/-- C9: the claim says an internal error during feature engineering, scaling
or prediction yields a 500 with a stable, generic external message and the raw
error text only logged. The code's handler (app.py line 198) instead embeds
`str(e)` in the response body: on a valid request whose model step raises
`division by zero`, the 500 body is `Internal server error: division by zero`,
and two different internal error texts produce two different external
messages. -/
theorem predict_500_embeds_exception_text :
    predict exampleReq (fun _ => Except.error "division by zero") =
      PredictResult.serverError ("Internal server error: division by zero") ∧
    predict exampleReq (fun _ => Except.error "msg A") ≠
      predict exampleReq (fun _ => Except.error "msg B") := by
  refine ⟨by decide, by decide⟩

/-- C10: a required field present in the body with the empty-string value is
treated exactly like an absent field: `data[field] == ''` makes it missing
(app.py line 133), it is listed in the aggregated missing-fields 400, and the
numeric/range check is never reached for it. -/
theorem predict_empty_string_counts_as_missing :
    ∀ (d : ReqData) (f : String) (rm : ReqData → Except String ℚ),
      d.isEmpty = false → f ∈ required_fields →
      lookupJ d f = some (JVal.str "") →
      isMissing d f = true ∧ f ∈ missing_fields d ∧
      predict d rm =
        PredictResult.badRequest (ValErr.missingFields (missing_fields d)) := by
  intro d f rm h1 hf hlook
  have hmiss : isMissing d f = true := by
    unfold isMissing
    rw [hlook]
    rfl
  have hmem : f ∈ missing_fields d := List.mem_filter.mpr ⟨hf, hmiss⟩
  have h2' : (missing_fields d).isEmpty = false := by
    rw [List.isEmpty_eq_false]
    exact List.ne_nil_of_mem hmem
  exact ⟨hmiss, hmem, by simp [predict, h1, h2']⟩

/-- C10 witness: `bedrooms = ""` with all other fields valid is reported as
the missing field `bedrooms` in the aggregated 400. -/
theorem predict_empty_string_counts_as_missing_witness :
    isMissing reqEmptyBedrooms ("bedrooms") = true ∧
    "bedrooms" ∈ missing_fields reqEmptyBedrooms ∧
    predict reqEmptyBedrooms (fun _ => Except.ok 2) =
      PredictResult.badRequest
        (ValErr.missingFields (missing_fields reqEmptyBedrooms)) :=
  predict_empty_string_counts_as_missing reqEmptyBedrooms ("bedrooms")
    (fun _ => Except.ok 2) (by decide) (by decide) (by decide)
